import Mathlib

/-!
Verification of the MCPChartServer SSE / request-lifecycle core.

Shallow embedding of `server/storage.ts` (MemStorage), `server/sse.ts`
(SSEManager), `server/chart-service.ts` (ChartService.generateChart) and
`server/routes.ts` (the /api/v2/chart/generate handler), together with the
zod `chartConfigSchema` from `shared/schema.ts`.

JS `Map`s are modelled as insertion-ordered association lists with
`Map.get`/`Map.set`/`Map.delete` semantics; `Date.now()` / `new Date()`
values are modelled as `Nat` millisecond timestamps passed in explicitly at
each call site that reads the clock.  The cooperative (single-threaded,
run-to-completion) event-loop semantics of Node is modelled by sequencing
the handler body, the synchronous prefix of `generateChart`, its
continuation after the awaited fetch, and the `.then` callback in program
order; the order of observable side effects (event emissions and ledger
writes) is recorded in a step log.
-/

namespace MCPChart

/-- Lookup in an insertion-ordered association list (JS `Map.get`). -/
def lookupA {κ α : Type} [DecidableEq κ] (k : κ) : List (κ × α) → Option α
  | [] => none
  | (k', v) :: rest => if k' = k then some v else lookupA k rest

/-- Update in an insertion-ordered association list (JS `Map.set`):
replace the value in place when the key is present, append otherwise. -/
def setA {κ α : Type} [DecidableEq κ] (k : κ) (v : α) : List (κ × α) → List (κ × α)
  | [] => [(k, v)]
  | (k', v') :: rest => if k' = k then (k, v) :: rest else (k', v') :: setA k v rest

/-- Deletion from an insertion-ordered association list (JS `Map.delete`). -/
def delA {κ α : Type} [DecidableEq κ] (k : κ) : List (κ × α) → List (κ × α)
  | [] => []
  | (k', v') :: rest => if k' = k then rest else (k', v') :: delA k rest

/-- Keys of an association list, in insertion order. -/
def keysA {κ α : Type} (l : List (κ × α)) : List κ := l.map Prod.fst

/-- ChartConfig (shared/schema.ts, `chartConfigSchema` output type).  The
`indicators` and `drawings` arrays are opaque pass-through payload for the
core under verification and are not modelled. -/
structure ChartConfig where
  symbol : String
  interval : String
  chartType : String
  width : Nat
  height : Nat
  theme : String
  showVolume : Bool
  showGrid : Bool
  timezone : String
  deriving Repr, DecidableEq

/-- ChartRequest record (shared/schema.ts `chartRequests` row type). -/
structure ChartRequest where
  id : Nat
  requestId : String
  symbol : String
  interval : String
  chartType : String
  width : Nat
  height : Nat
  theme : String
  showVolume : Bool
  showGrid : Bool
  timezone : String
  status : String
  chartUrl : Option String
  base64Data : Option String
  errorMessage : Option String
  processingTime : Option Nat
  createdAt : Nat
  completedAt : Option Nat
  deriving Repr, DecidableEq

/-- A `Partial<ChartRequest>` as used by `updateChartRequest`: every field
optional; `some` means the field is present in the update object. -/
structure ChartRequestUpdate where
  id : Option Nat := none
  requestId : Option String := none
  symbol : Option String := none
  interval : Option String := none
  chartType : Option String := none
  width : Option Nat := none
  height : Option Nat := none
  theme : Option String := none
  showVolume : Option Bool := none
  showGrid : Option Bool := none
  timezone : Option String := none
  status : Option String := none
  chartUrl : Option (Option String) := none
  base64Data : Option (Option String) := none
  errorMessage : Option (Option String) := none
  processingTime : Option (Option Nat) := none
  completedAt : Option (Option Nat) := none
  deriving Repr, DecidableEq

/-- JS object spread `{ ...existing, ...updates }`: a field present in the
update overwrites, an absent field keeps the existing value. -/
def applyUpdates (r : ChartRequest) (u : ChartRequestUpdate) : ChartRequest :=
  { id := u.id.getD r.id
    requestId := u.requestId.getD r.requestId
    symbol := u.symbol.getD r.symbol
    interval := u.interval.getD r.interval
    chartType := u.chartType.getD r.chartType
    width := u.width.getD r.width
    height := u.height.getD r.height
    theme := u.theme.getD r.theme
    showVolume := u.showVolume.getD r.showVolume
    showGrid := u.showGrid.getD r.showGrid
    timezone := u.timezone.getD r.timezone
    status := u.status.getD r.status
    chartUrl := u.chartUrl.getD r.chartUrl
    base64Data := u.base64Data.getD r.base64Data
    errorMessage := u.errorMessage.getD r.errorMessage
    processingTime := u.processingTime.getD r.processingTime
    createdAt := r.createdAt
    completedAt := u.completedAt.getD r.completedAt }

/-- SseEvent record (shared/schema.ts `sseEvents` row type). -/
structure SseEvent where
  id : Nat
  requestId : String
  eventType : String
  message : String
  timestamp : Nat
  deriving Repr, DecidableEq

/-- InsertSseEvent (shared/schema.ts `insertSseEventSchema` output). -/
structure InsertSseEvent where
  requestId : String
  eventType : String
  message : String
  deriving Repr, DecidableEq

/-- MemStorage state (server/storage.ts).  The `users` table is untouched
by the core under verification and is not modelled. -/
structure MemStorage where
  chartRequests : List (String × ChartRequest)
  sseEvents : List (String × List SseEvent)
  currentChartId : Nat
  currentEventId : Nat
  deriving Repr, DecidableEq

/-- MemStorage constructor. -/
def MemStorage.empty : MemStorage :=
  { chartRequests := [], sseEvents := [], currentChartId := 1, currentEventId := 1 }

/-- MemStorage.createChartRequest; `now` is the single clock read backing
both `Date.now()` in the requestId and `new Date()` in `createdAt`. -/
def MemStorage.createChartRequest (s : MemStorage) (cfg : ChartConfig) (now : Nat) :
    ChartRequest × MemStorage :=
  let id := s.currentChartId
  let requestId := "req_" ++ toString now ++ "_" ++ toString id
  let request : ChartRequest :=
    { id := id
      requestId := requestId
      symbol := cfg.symbol
      interval := cfg.interval
      chartType := cfg.chartType
      width := cfg.width
      height := cfg.height
      theme := cfg.theme
      showVolume := cfg.showVolume
      showGrid := cfg.showGrid
      timezone := cfg.timezone
      status := "pending"
      chartUrl := none
      base64Data := none
      errorMessage := none
      processingTime := none
      createdAt := now
      completedAt := none }
  (request,
    { s with
      chartRequests := setA requestId request s.chartRequests
      currentChartId := id + 1 })

/-- MemStorage.getChartRequest. -/
def MemStorage.getChartRequest (s : MemStorage) (requestId : String) : Option ChartRequest :=
  lookupA requestId s.chartRequests

/-- MemStorage.updateChartRequest: no-op returning `undefined` when the
requestId is unknown, otherwise spread-merge and store back. -/
def MemStorage.updateChartRequest (s : MemStorage) (requestId : String)
    (updates : ChartRequestUpdate) : Option ChartRequest × MemStorage :=
  match lookupA requestId s.chartRequests with
  | none => (none, s)
  | some existing =>
    let updated := applyUpdates existing updates
    (some updated, { s with chartRequests := setA requestId updated s.chartRequests })

/-- One step of the stable insertion sort modelling
`Array.prototype.sort((a, b) => b.createdAt - a.createdAt)`: `x` is placed
before the first element whose `createdAt` is less than or equal to its own,
which keeps elements with equal keys in their original relative order, as
the (spec-mandated stable) JS sort does. -/
def insertDesc (x : ChartRequest) : List ChartRequest → List ChartRequest
  | [] => [x]
  | y :: ys => if y.createdAt ≤ x.createdAt then x :: y :: ys else y :: insertDesc x ys

/-- Stable sort of the ledger values by descending `createdAt`. -/
def sortDesc : List ChartRequest → List ChartRequest
  | [] => []
  | x :: xs => insertDesc x (sortDesc xs)

/-- MemStorage.getRecentChartRequests: sort all ledger values by descending
creation time (stable), then `slice(0, limit)`. -/
def MemStorage.getRecentChartRequests (s : MemStorage) (limit : Nat) : List ChartRequest :=
  (sortDesc (s.chartRequests.map Prod.snd)).take limit

/-- MemStorage.createSseEvent: assign the next global event id and append
to the per-request history list. -/
def MemStorage.createSseEvent (s : MemStorage) (e : InsertSseEvent) (now : Nat) :
    SseEvent × MemStorage :=
  let id := s.currentEventId
  let event : SseEvent :=
    { id := id, requestId := e.requestId, eventType := e.eventType
      message := e.message, timestamp := now }
  let prev := (lookupA e.requestId s.sseEvents).getD []
  (event,
    { s with
      sseEvents := setA e.requestId (prev ++ [event]) s.sseEvents
      currentEventId := id + 1 })

/-- MemStorage.getSseEvents. -/
def MemStorage.getSseEvents (s : MemStorage) (requestId : String) : List SseEvent :=
  (lookupA requestId s.sseEvents).getD []

/-- SSEClient (server/sse.ts).  The Express `Response` stream handle is
modelled by a stream identity `sid` pointing into the world's stream table. -/
structure SSEClient where
  id : String
  sid : Nat
  lastEventId : Option String
  deriving Repr, DecidableEq

/-- Observable state of one SSE output stream: the frames written to it,
and whether `end()` has been called on it. -/
structure StreamState where
  written : List String := []
  ended : Bool := false
  deriving Repr, DecidableEq

/-- Combined state of the process: the storage singleton, the SSEManager's
client map, and the stream table backing the `Response` handles. -/
structure World where
  storage : MemStorage
  clients : List (String × SSEClient)
  streams : List (Nat × StreamState)
  deriving Repr, DecidableEq

/-- Fresh process state: empty storage, no clients, no streams. -/
def World.empty : World :=
  { storage := MemStorage.empty, clients := [], streams := [] }

/-- Append one frame to a stream (`res.write(...)`). -/
def World.writeStream (w : World) (sid : Nat) (frame : String) : World :=
  let st := (lookupA sid w.streams).getD {}
  { w with streams := setA sid { st with written := st.written ++ [frame] } w.streams }

/-- Close a stream (`res.end()`). -/
def World.endStream (w : World) (sid : Nat) : World :=
  let st := (lookupA sid w.streams).getD {}
  { w with streams := setA sid { st with ended := true } w.streams }

/-- Serialisation of the SSE data frame written by `sendEvent`
(`data: ${JSON.stringify(eventData)}\n\n`); the claims never inspect the
JSON text, only that a frame is written. -/
def dataFrame (eventType message requestId : String) (now : Nat) : String :=
  "data: \x7b\"type\":\"" ++ eventType ++ "\",\"message\":\"" ++ message ++
    "\",\"requestId\":\"" ++ requestId ++ "\",\"timestamp\":" ++ toString now ++ "\x7d\n\n"

/-- SSEManager.sendEvent: return immediately when the client is not in the
map; otherwise write the two SSE frames to that client's stream and, when
`requestId` is not the reserved `"system"` identifier, append the event to
storage via `createSseEvent` (with `eventType.toUpperCase()`). -/
def World.sendEvent (w : World) (clientId eventType message requestId : String)
    (now : Nat) : World :=
  match lookupA clientId w.clients with
  | none => w
  | some client =>
    let w1 := w.writeStream client.sid ("event: " ++ eventType ++ "\n")
    let w2 := w1.writeStream client.sid (dataFrame eventType message requestId now)
    if requestId = "system" then w2
    else
      let (_, st) := w2.storage.createSseEvent
        { requestId := requestId, eventType := eventType.toUpper, message := message } now
      { w2 with storage := st }

/-- SSEManager.addClient: put the client in the map (`Map.set`), then send
the initial connection event with the reserved `"system"` requestId.  The
heartbeat timer and the `close` listener are runtime wiring with no effect
on the state observed by the claims and are not modelled. -/
def World.addClient (w : World) (clientId : String) (sid : Nat)
    (lastEventId : Option String) (now : Nat) : World :=
  let client : SSEClient := { id := clientId, sid := sid, lastEventId := lastEventId }
  let w1 := { w with clients := setA clientId client w.clients }
  w1.sendEvent clientId "connection" "SSE connection established" "system" now

/-- SSEManager.removeClient: when the client is in the map, end its stream
and delete the entry; otherwise do nothing. -/
def World.removeClient (w : World) (clientId : String) : World :=
  match lookupA clientId w.clients with
  | none => w
  | some client =>
    let w1 := w.endStream client.sid
    { w1 with clients := delA clientId w1.clients }

/-- SSEManager.broadcast: `sendEvent` to every currently-registered client,
in map iteration (insertion) order.  `sendEvent` never mutates the client
map in this model (stream writes cannot fail), so folding over the initial
list is faithful to `Map.forEach` over the live map. -/
def World.broadcast (w : World) (eventType message requestId : String) (now : Nat) : World :=
  w.clients.foldl (fun acc p => acc.sendEvent p.1 eventType message requestId now) w

/-- SSEManager.getClientCount (`Map.size`). -/
def World.getClientCount (w : World) : Nat :=
  w.clients.length

/-- One operation on the SSEManager, for quantifying over arbitrary call
sequences against a fresh process. -/
inductive RegOp
  | add (clientId : String) (sid : Nat) (lastEventId : Option String) (now : Nat)
  | remove (clientId : String)
  | send (clientId eventType message requestId : String) (now : Nat)
  | bcast (eventType message requestId : String) (now : Nat)
  deriving Repr, DecidableEq

/-- Interpretation of one SSEManager operation. -/
def applyRegOp (w : World) : RegOp → World
  | .add clientId sid lastEventId now => w.addClient clientId sid lastEventId now
  | .remove clientId => w.removeClient clientId
  | .send clientId eventType message requestId now =>
      w.sendEvent clientId eventType message requestId now
  | .bcast eventType message requestId now => w.broadcast eventType message requestId now

/-- Run a sequence of SSEManager operations against a fresh process. -/
def runOps (ops : List RegOp) : World :=
  ops.foldl applyRegOp World.empty

/-- Raw request body for `chartConfigSchema.parse`: each field either absent
or present with a value of the right primitive type (bodies whose fields
have the wrong primitive type also fail parsing and are subsumed by the
absent case for the claims considered). -/
structure RawChartConfig where
  symbol : Option String := none
  interval : Option String := none
  chartType : Option String := none
  width : Option Nat := none
  height : Option Nat := none
  theme : Option String := none
  showVolume : Option Bool := none
  showGrid : Option Bool := none
  timezone : Option String := none
  deriving Repr, DecidableEq

/-- Enum values of `interval` in `chartConfigSchema`. -/
def intervalValues : List String :=
  ["1m", "5m", "15m", "30m", "1h", "2h", "4h", "6h", "12h", "1D", "1W", "1M"]

/-- Enum values of `chartType` in `chartConfigSchema`. -/
def chartTypeValues : List String :=
  ["candlestick", "line", "area", "bar", "heikin_ashi", "hollow_candle",
   "baseline", "hi_lo", "column"]

/-- Enum values of `theme` in `chartConfigSchema`. -/
def themeValues : List String := ["light", "dark"]

/-- chartConfigSchema.parse (shared/schema.ts): required `symbol` of length
at least 1, required `interval`/`chartType` enums, bounded `width` (default
800) and `height` (default 600), `theme` enum defaulting to `"light"`,
boolean flags defaulting to true, `timezone` defaulting to
`"America/New_York"`.  A zod failure throws a `ZodError`; here it is the
`Except.error` branch carrying the first failing message. -/
def chartConfigParse (raw : RawChartConfig) : Except String ChartConfig :=
  match raw.symbol with
  | none => .error "Required"
  | some symbol =>
    if symbol.length < 1 then .error "Symbol is required"
    else match raw.interval with
      | none => .error "Required"
      | some interval =>
        if ¬ intervalValues.contains interval then .error "Invalid enum value"
        else match raw.chartType with
          | none => .error "Required"
          | some chartType =>
            if ¬ chartTypeValues.contains chartType then .error "Invalid enum value"
            else
              let width := raw.width.getD 800
              if width < 400 ∨ 2000 < width then .error "Invalid width"
              else
                let height := raw.height.getD 600
                if height < 300 ∨ 1500 < height then .error "Invalid height"
                else
                  let theme := raw.theme.getD "light"
                  if ¬ themeValues.contains theme then .error "Invalid enum value"
                  else
                    .ok { symbol := symbol, interval := interval, chartType := chartType
                          width := width, height := height, theme := theme
                          showVolume := raw.showVolume.getD true
                          showGrid := raw.showGrid.getD true
                          timezone := raw.timezone.getD "America/New_York" }

/-- One observable side effect of the generate-chart lifecycle, in the
cooperative program order: an event emission (`sseManager.sendEvent` call),
a ledger write (`storage.updateChartRequest` call, recording the `status`
field of the update), or the ledger creation (`storage.createChartRequest`). -/
inductive Step
  | createReq (requestId : String)
  | emit (clientId eventType message requestId : String)
  | ledgerWrite (requestId status : String)
  deriving Repr, DecidableEq

/-- World paired with the program-order log of observable lifecycle steps. -/
structure LWorld where
  world : World
  log : List Step
  deriving Repr, DecidableEq

/-- Logged `sseManager.sendEvent` call. -/
def LWorld.doSend (lw : LWorld) (clientId eventType message requestId : String)
    (now : Nat) : LWorld :=
  { world := lw.world.sendEvent clientId eventType message requestId now
    log := lw.log ++ [.emit clientId eventType message requestId] }

/-- Logged `storage.updateChartRequest` call. -/
def LWorld.doUpdate (lw : LWorld) (requestId : String) (u : ChartRequestUpdate) :
    Option ChartRequest × LWorld :=
  let (r, st) := lw.world.storage.updateChartRequest requestId u
  (r, { world := { lw.world with storage := st }
        log := lw.log ++ [.ledgerWrite requestId (u.status.getD "")] })

/-- Logged `storage.createChartRequest` call. -/
def LWorld.doCreate (lw : LWorld) (cfg : ChartConfig) (now : Nat) :
    ChartRequest × LWorld :=
  let (r, st) := lw.world.storage.createChartRequest cfg now
  (r, { world := { lw.world with storage := st }
        log := lw.log ++ [.createReq r.requestId] })

/-- ChartImgResponse (server/chart-service.ts). -/
structure ChartImgResponse where
  success : Bool
  url : Option String := none
  base64 : Option String := none
  error : Option String := none
  processingTime : Option Nat := none
  deriving Repr, DecidableEq

/-- Outcome of the awaited upstream exchange in `generateChart`
(the `fetch` of the Chart-IMG API and the reading of its response),
which is external to the core: a JSON 200, a PNG 200, a non-ok HTTP
status, a 200 with an unexpected content type, or a rejected fetch. -/
inductive UpstreamResult
  | jsonOk (url base64 : Option String)
  | pngOk (base64 : String)
  | httpError (status : Nat) (body : String)
  | badContentType
  | networkError (message : String)
  deriving Repr, DecidableEq

/-- Seconds with one decimal as in the success message
`((Date.now() - startTime) / 1000).toFixed(1)`; the decimal is truncated
rather than round-to-nearest here, which no claim observes. -/
def secondsTenths (ms : Nat) : String :=
  toString (ms / 1000) ++ "." ++ toString (ms % 1000 / 100)

/-- ChartService.generateChart (server/chart-service.ts lines 23-110) on
the logged world.  `t0` is `startTime`; `t1` is the clock when the awaited
upstream exchange settles (so `processingTime = t1 - t0`).  Every progress,
success and error emission is guarded by `if (clientId)` as in the source;
all throw sites funnel into the single catch block, which emits the error
event and returns the failure record. -/
def generateChart (lw : LWorld) (cfg : ChartConfig) (requestId : String)
    (clientId : Option String) (upstream : UpstreamResult) (t0 t1 : Nat) :
    ChartImgResponse × LWorld :=
  let send := fun (l : LWorld) (eventType message : String) (t : Nat) =>
    match clientId with
    | some cid => l.doSend cid eventType message requestId t
    | none => l
  let lw := send lw "progress" "Preparing chart request..." t0
  let lw := send lw "progress" "Sending request to Chart-IMG API..." t0
  let fail := fun (l : LWorld) (errorMessage : String) =>
    let l := send l "error" ("Chart generation failed: " ++ errorMessage) t1
    (({ success := false, error := some errorMessage
        processingTime := some (t1 - t0) } : ChartImgResponse), l)
  match upstream with
  | .httpError status body =>
    fail lw ("Chart-IMG API error: " ++ toString status ++ " " ++ body)
  | .networkError message => fail lw message
  | .jsonOk url base64 =>
    let lw := send lw "progress" "Processing chart data..." t1
    let result : ChartImgResponse :=
      { success := true, url := url, base64 := base64
        processingTime := some (t1 - t0) }
    let lw := send lw "success"
      ("Chart generated successfully (" ++ secondsTenths (t1 - t0) ++ "s)") t1
    (result, lw)
  | .pngOk base64 =>
    let lw := send lw "progress" "Processing chart data..." t1
    let result : ChartImgResponse :=
      { success := true, base64 := some ("data:image/png;base64," ++ base64)
        processingTime := some (t1 - t0) }
    let lw := send lw "success"
      ("Chart generated successfully (" ++ secondsTenths (t1 - t0) ++ "s)") t1
    (result, lw)
  | .badContentType =>
    let lw := send lw "progress" "Processing chart data..." t1
    fail lw "Unexpected response format from Chart-IMG API"

/-- HTTP response of the generate endpoint (the immediate `res.json` /
error response; the render continuation keeps running afterwards). -/
structure RouteResponse where
  httpStatus : Nat
  success : Bool
  requestId : Option String := none
  error : Option String := none
  deriving Repr, DecidableEq

/-- POST /api/v2/chart/generate (server/routes.ts lines 14-83) together
with its detached render continuation, in cooperative program order:
validate the body; create the ledger entry; send the initial `request`
event if an `x-client-id` header is present; write `processing` to the
ledger; run `generateChart`; then (the `.then` callback) write the terminal
ledger record.  A `ZodError` yields the 400 response and touches no state. -/
def chartGenerateRoute (lw : LWorld) (raw : RawChartConfig)
    (clientIdHeader : Option String) (upstream : UpstreamResult) (t0 t1 : Nat) :
    RouteResponse × LWorld :=
  match chartConfigParse raw with
  | .error _ =>
    ({ httpStatus := 400, success := false, error := some "Invalid request parameters" }, lw)
  | .ok config =>
    let (chartRequest, lw) := lw.doCreate config t0
    let lw := match clientIdHeader with
      | some cid =>
        lw.doSend cid "request" ("Chart generation started for " ++ config.symbol)
          chartRequest.requestId t0
      | none => lw
    let (_, lw) := lw.doUpdate chartRequest.requestId { status := some "processing" }
    let (result, lw) := generateChart lw config chartRequest.requestId clientIdHeader
      upstream t0 t1
    let lw :=
      if result.success then
        (lw.doUpdate chartRequest.requestId
          { status := some "completed", chartUrl := some result.url
            base64Data := some result.base64
            processingTime := some result.processingTime
            completedAt := some (some t1) }).2
      else
        (lw.doUpdate chartRequest.requestId
          { status := some "failed", errorMessage := some result.error
            processingTime := some result.processingTime
            completedAt := some (some t1) }).2
    ({ httpStatus := 200, success := true, requestId := some chartRequest.requestId }, lw)

/-- Index of the first step satisfying `p` (length of the log if none). -/
def firstIdxP (p : Step → Bool) : List Step → Nat
  | [] => 0
  | x :: xs => if p x then 0 else firstIdxP p xs + 1

/-- Recogniser for an emission of a given event type for a given request. -/
def isEmitOf (eventType requestId : String) : Step → Bool
  | .emit _ et _ rid => et = eventType && rid = requestId
  | _ => false

/-- Recogniser for a ledger write of a given status for a given request. -/
def isWriteOf (status requestId : String) : Step → Bool
  | .ledgerWrite rid st => rid = requestId && st = status
  | _ => false

/-- Invariant: the SSEManager client map has no duplicate keys (it models a
JS `Map`). -/
def NodupClients (w : World) : Prop := (keysA w.clients).Nodup

/-- Frames written so far to the stream with identity `sid`. -/
def writtenOn (w : World) (sid : Nat) : List String :=
  ((lookupA sid w.streams).getD {}).written

/-- Run a sequence of `createSseEvent` calls (each with its clock reading)
against a storage state. -/
def applyInserts : List (InsertSseEvent × Nat) → MemStorage → MemStorage
  | [], s => s
  | (e, t) :: rest, s => applyInserts rest (s.createSseEvent e t).2

/-- Invariant backing the per-request monotonicity of event ids: every
per-request history is strictly increasing in id and all ids are below the
global counter. -/
def EventIdsGood (s : MemStorage) : Prop :=
  ∀ requestId : String,
    List.Pairwise (fun a b => a.id < b.id) (s.getSseEvents requestId) ∧
      ∀ e ∈ s.getSseEvents requestId, e.id < s.currentEventId

/-- A well-formed chart configuration used in concrete scenarios. -/
def sampleConfig : ChartConfig :=
  { symbol := "NASDAQ:AAPL", interval := "1D", chartType := "candlestick"
    width := 800, height := 600, theme := "light"
    showVolume := true, showGrid := true, timezone := "America/New_York" }

/-- A well-formed raw request body used in concrete scenarios. -/
def rawSample : RawChartConfig :=
  { symbol := some "NASDAQ:AAPL", interval := some "1D", chartType := some "candlestick" }

/-- Event type of the terminal emission for a given upstream outcome
(`success` on the two 200 shapes, `error` on every throw path). -/
def terminalEventType : UpstreamResult → String
  | .jsonOk _ _ => "success"
  | .pngOk _ => "success"
  | _ => "error"

/-- Ledger status written by the detached continuation for a given
upstream outcome. -/
def terminalStatusOf : UpstreamResult → String
  | .jsonOk _ _ => "completed"
  | .pngOk _ => "completed"
  | _ => "failed"

/-- Step log of one concrete successful generate-chart lifecycle, with
client `c1` connected, submitted at t=10 and resolving upstream at t=20. -/
def lifecycleLog : List Step :=
  (chartGenerateRoute { world := World.empty.addClient "c1" 1 none 0, log := [] }
    rawSample (some "c1") (.jsonOk (some "u") none) 10 20).2.log

theorem keysA_nil {κ α : Type} : keysA ([] : List (κ × α)) = [] := rfl

theorem keysA_cons {κ α : Type} (p : κ × α) (l : List (κ × α)) :
    keysA (p :: l) = p.1 :: keysA l := rfl

section AssocLemmas

variable {κ α : Type} [DecidableEq κ]

theorem lookupA_setA_self (k : κ) (v : α) (l : List (κ × α)) :
    lookupA k (setA k v l) = some v := by
  induction l with
  | nil => simp [setA, lookupA]
  | cons p rest ih =>
    by_cases h : p.1 = k
    · simp [setA, h, lookupA]
    · simp [setA, h, lookupA, ih]

theorem lookupA_setA_ne (k k' : κ) (v : α) (l : List (κ × α)) (h : k' ≠ k) :
    lookupA k' (setA k v l) = lookupA k' l := by
  have hks : ¬(k = k') := fun e => h e.symm
  induction l with
  | nil => simp [setA, lookupA, hks]
  | cons p rest ih =>
    by_cases hp : p.1 = k
    · simp [setA, hp, lookupA, hks]
    · simp [setA, hp, lookupA, ih]

theorem lookupA_eq_none_iff (k : κ) (l : List (κ × α)) :
    lookupA k l = none ↔ k ∉ keysA l := by
  induction l with
  | nil => simp [lookupA, keysA]
  | cons p rest ih =>
    by_cases h : p.1 = k
    · simp [lookupA, h, keysA_cons]
    · have h2 : ¬(k = p.1) := fun e => h e.symm
      simp [lookupA, h, keysA_cons, ih, h2]

theorem mem_keysA_setA_self (k : κ) (v : α) (l : List (κ × α)) :
    k ∈ keysA (setA k v l) := by
  induction l with
  | nil => simp [setA, keysA]
  | cons p rest ih =>
    by_cases hp : p.1 = k
    · simp [setA, hp, keysA_cons]
    · simp [setA, hp, keysA_cons]
      exact Or.inr ih

theorem keysA_setA_mem (k : κ) (v : α) (l : List (κ × α)) (h : k ∈ keysA l) :
    keysA (setA k v l) = keysA l := by
  induction l with
  | nil => simp [keysA] at h
  | cons p rest ih =>
    by_cases hp : p.1 = k
    · simp [setA, hp, keysA_cons]
    · have h2 : k ∈ keysA rest := by
        rw [keysA_cons] at h
        rcases List.mem_cons.mp h with h | h
        · exact absurd h.symm hp
        · exact h
      simp [setA, hp, keysA_cons, ih h2]

theorem keysA_setA_not_mem (k : κ) (v : α) (l : List (κ × α)) (h : k ∉ keysA l) :
    keysA (setA k v l) = keysA l ++ [k] := by
  induction l with
  | nil => simp [setA, keysA]
  | cons p rest ih =>
    rw [keysA_cons] at h
    have h1 : ¬(k = p.1) := fun e => h (List.mem_cons.mpr (Or.inl e))
    have h2 : k ∉ keysA rest := fun e => h (List.mem_cons.mpr (Or.inr e))
    have hp : ¬(p.1 = k) := fun e => h1 e.symm
    simp [setA, hp, keysA_cons, ih h2]

theorem nodup_keysA_setA (k : κ) (v : α) (l : List (κ × α))
    (h : (keysA l).Nodup) : (keysA (setA k v l)).Nodup := by
  by_cases hm : k ∈ keysA l
  · rw [keysA_setA_mem k v l hm]; exact h
  · rw [keysA_setA_not_mem k v l hm]
    exact h.append (List.nodup_singleton k) (List.disjoint_singleton.mpr hm)

theorem length_setA_mem (k : κ) (v : α) (l : List (κ × α)) (h : k ∈ keysA l) :
    (setA k v l).length = l.length := by
  induction l with
  | nil => simp [keysA] at h
  | cons p rest ih =>
    by_cases hp : p.1 = k
    · simp [setA, hp]
    · have h2 : k ∈ keysA rest := by
        rw [keysA_cons] at h
        rcases List.mem_cons.mp h with h | h
        · exact absurd h.symm hp
        · exact h
      simp [setA, hp, ih h2]

theorem delA_sublist (k : κ) (l : List (κ × α)) : List.Sublist (delA k l) l := by
  induction l with
  | nil => simp [delA]
  | cons p rest ih =>
    by_cases hp : p.1 = k
    · simp only [delA, hp, if_true, if_pos]
      exact List.sublist_cons_self p rest
    · simp only [delA, hp, if_false, if_neg, not_false_iff]
      exact ih.cons₂ p

theorem nodup_keysA_delA (k : κ) (l : List (κ × α))
    (h : (keysA l).Nodup) : (keysA (delA k l)).Nodup :=
  h.sublist ((delA_sublist k l).map Prod.fst)

theorem lookupA_delA_self (k : κ) (l : List (κ × α)) (h : (keysA l).Nodup) :
    lookupA k (delA k l) = none := by
  induction l with
  | nil => simp [delA, lookupA]
  | cons p rest ih =>
    have h' := List.nodup_cons.mp (by simpa [keysA_cons] using h)
    by_cases hp : p.1 = k
    · have hk : k ∉ keysA rest := hp ▸ h'.1
      simpa [delA, hp] using (lookupA_eq_none_iff k rest).mpr hk
    · simp [delA, hp, lookupA, ih h'.2]

theorem filter_key_nil_of_not_mem (k : κ) (l : List (κ × α)) (h : k ∉ keysA l) :
    l.filter (fun p => p.1 = k) = [] := by
  induction l with
  | nil => simp
  | cons p rest ih =>
    rw [keysA_cons] at h
    have h1 : ¬(p.1 = k) := fun e => h (List.mem_cons.mpr (Or.inl e.symm))
    have h2 : k ∉ keysA rest := fun e => h (List.mem_cons.mpr (Or.inr e))
    simp [List.filter_cons, h1, ih h2]

theorem filter_key_eq_of_lookup (k : κ) (v : α) (l : List (κ × α))
    (hn : (keysA l).Nodup) (hl : lookupA k l = some v) :
    l.filter (fun p => p.1 = k) = [(k, v)] := by
  induction l with
  | nil => simp [lookupA] at hl
  | cons p rest ih =>
    have h' := List.nodup_cons.mp (by simpa [keysA_cons] using hn)
    by_cases hp : p.1 = k
    · have hv : p.2 = v := by
        simpa [lookupA, hp] using hl
      have hk : k ∉ keysA rest := hp ▸ h'.1
      have hpair : p = (k, v) := Prod.ext hp hv
      simp [List.filter_cons, hp, filter_key_nil_of_not_mem k rest hk, hpair]
    · have hl' : lookupA k rest = some v := by
        simpa [lookupA, hp] using hl
      simp [List.filter_cons, hp, ih h'.2 hl']

theorem length_filter_key_le_one (k : κ) (l : List (κ × α))
    (h : (keysA l).Nodup) : (l.filter (fun p => p.1 = k)).length ≤ 1 := by
  induction l with
  | nil => simp
  | cons p rest ih =>
    have h' := List.nodup_cons.mp (by simpa [keysA_cons] using h)
    by_cases hp : p.1 = k
    · have hk : k ∉ keysA rest := hp ▸ h'.1
      simp [List.filter_cons, hp, filter_key_nil_of_not_mem k rest hk]
    · simpa [List.filter_cons, hp] using ih h'.2

end AssocLemmas

theorem sendEvent_clients (w : World) (clientId eventType message requestId : String)
    (now : Nat) :
    (w.sendEvent clientId eventType message requestId now).clients = w.clients := by
  unfold World.sendEvent
  cases lookupA clientId w.clients with
  | none => rfl
  | some client =>
    by_cases h : requestId = "system" <;>
      simp [h, World.writeStream, MemStorage.createSseEvent]

theorem addClient_clients (w : World) (clientId : String) (sid : Nat)
    (lastEventId : Option String) (now : Nat) :
    (w.addClient clientId sid lastEventId now).clients =
      setA clientId { id := clientId, sid := sid, lastEventId := lastEventId } w.clients := by
  unfold World.addClient
  rw [sendEvent_clients]

theorem removeClient_clients (w : World) (clientId : String) :
    (w.removeClient clientId).clients =
      match lookupA clientId w.clients with
      | none => w.clients
      | some _ => delA clientId w.clients := by
  unfold World.removeClient
  cases lookupA clientId w.clients with
  | none => rfl
  | some client => simp [World.endStream]

theorem foldl_sendEvent_clients (l : List (String × SSEClient)) (w : World)
    (eventType message requestId : String) (now : Nat) :
    (l.foldl (fun acc p => acc.sendEvent p.1 eventType message requestId now) w).clients =
      w.clients := by
  induction l generalizing w with
  | nil => rfl
  | cons p rest ih => rw [List.foldl_cons, ih, sendEvent_clients]

theorem broadcast_clients (w : World) (eventType message requestId : String) (now : Nat) :
    (w.broadcast eventType message requestId now).clients = w.clients :=
  foldl_sendEvent_clients w.clients w eventType message requestId now

theorem nodupClients_applyRegOp (w : World) (op : RegOp) (h : NodupClients w) :
    NodupClients (applyRegOp w op) := by
  cases op with
  | add clientId sid lastEventId now =>
    unfold NodupClients
    rw [applyRegOp, addClient_clients]
    exact nodup_keysA_setA _ _ _ h
  | remove clientId =>
    unfold NodupClients
    rw [applyRegOp, removeClient_clients]
    cases lookupA clientId w.clients with
    | none => exact h
    | some c => exact nodup_keysA_delA _ _ h
  | send clientId eventType message requestId now =>
    unfold NodupClients
    rw [applyRegOp, sendEvent_clients]
    exact h
  | bcast eventType message requestId now =>
    unfold NodupClients
    rw [applyRegOp, broadcast_clients]
    exact h

theorem nodupClients_foldl (ops : List RegOp) (w : World) (h : NodupClients w) :
    NodupClients (ops.foldl applyRegOp w) := by
  induction ops generalizing w with
  | nil => exact h
  | cons op rest ih =>
    rw [List.foldl_cons]
    exact ih (applyRegOp w op) (nodupClients_applyRegOp w op h)

theorem nodupClients_runOps (ops : List RegOp) : NodupClients (runOps ops) :=
  nodupClients_foldl ops World.empty (by simp [NodupClients, World.empty, keysA])

theorem sendEvent_not_found (w : World) (clientId eventType message requestId : String)
    (now : Nat) (h : lookupA clientId w.clients = none) :
    w.sendEvent clientId eventType message requestId now = w := by
  unfold World.sendEvent
  rw [h]

theorem writeStream_storage (w : World) (sid : Nat) (frame : String) :
    (w.writeStream sid frame).storage = w.storage := rfl

theorem createSseEvent_getSseEvents_self (s : MemStorage) (e : InsertSseEvent) (now : Nat) :
    (s.createSseEvent e now).2.getSseEvents e.requestId =
      s.getSseEvents e.requestId ++
        [{ id := s.currentEventId, requestId := e.requestId, eventType := e.eventType
           message := e.message, timestamp := now }] := by
  simp [MemStorage.createSseEvent, MemStorage.getSseEvents, lookupA_setA_self]

theorem createSseEvent_getSseEvents_other (s : MemStorage) (e : InsertSseEvent) (now : Nat)
    (requestId : String) (h : requestId ≠ e.requestId) :
    (s.createSseEvent e now).2.getSseEvents requestId = s.getSseEvents requestId := by
  simp [MemStorage.createSseEvent, MemStorage.getSseEvents,
    lookupA_setA_ne e.requestId requestId _ _ h]

theorem sendEvent_storage_of_found (w : World) (clientId eventType message requestId : String)
    (now : Nat) (c : SSEClient) (hc : lookupA clientId w.clients = some c)
    (h : requestId ≠ "system") :
    (w.sendEvent clientId eventType message requestId now).storage =
      (w.storage.createSseEvent
        { requestId := requestId, eventType := eventType.toUpper, message := message } now).2 := by
  unfold World.sendEvent
  rw [hc]
  simp [h, World.writeStream]

theorem sendEvent_storage_append (w : World) (clientId eventType message requestId : String)
    (now : Nat) (c : SSEClient) (hc : lookupA clientId w.clients = some c)
    (h : requestId ≠ "system") :
    (w.sendEvent clientId eventType message requestId now).storage.getSseEvents requestId =
      w.storage.getSseEvents requestId ++
        [{ id := w.storage.currentEventId, requestId := requestId
           eventType := eventType.toUpper, message := message, timestamp := now }] := by
  rw [sendEvent_storage_of_found w clientId eventType message requestId now c hc h]
  exact createSseEvent_getSseEvents_self w.storage _ now

theorem writtenOn_writeStream_self (w : World) (sid : Nat) (frame : String) :
    writtenOn (w.writeStream sid frame) sid = writtenOn w sid ++ [frame] := by
  simp [writtenOn, World.writeStream, lookupA_setA_self]

theorem writtenOn_writeStream_other (w : World) (sid sid' : Nat) (frame : String)
    (h : sid' ≠ sid) :
    writtenOn (w.writeStream sid frame) sid' = writtenOn w sid' := by
  simp [writtenOn, World.writeStream, lookupA_setA_ne sid sid' _ _ h]

theorem writtenOn_sendEvent_mono (w : World) (clientId eventType message requestId : String)
    (now : Nat) (sid' : Nat) (frame : String) (h : frame ∈ writtenOn w sid') :
    frame ∈ writtenOn (w.sendEvent clientId eventType message requestId now) sid' := by
  unfold World.sendEvent
  cases hc : lookupA clientId w.clients with
  | none => exact h
  | some c =>
    have step : ∀ (v : World) (f : String), frame ∈ writtenOn v sid' →
        frame ∈ writtenOn (v.writeStream c.sid f) sid' := by
      intro v f hf
      by_cases hs : sid' = c.sid
      · subst hs
        rw [writtenOn_writeStream_self]
        exact List.mem_append_left _ hf
      · rwa [writtenOn_writeStream_other _ _ _ _ hs]
    have h2 := step (w.writeStream c.sid ("event: " ++ eventType ++ "\n"))
      (dataFrame eventType message requestId now)
      (step w ("event: " ++ eventType ++ "\n") h)
    by_cases hr : requestId = "system"
    · simpa [hr] using h2
    · simp only [hr, if_false, if_neg, not_false_iff]
      simpa [writtenOn] using h2

theorem writtenOn_sendEvent_self (w : World) (clientId eventType message requestId : String)
    (now : Nat) (c : SSEClient) (hc : lookupA clientId w.clients = some c) :
    ("event: " ++ eventType ++ "\n") ∈
      writtenOn (w.sendEvent clientId eventType message requestId now) c.sid := by
  unfold World.sendEvent
  rw [hc]
  have h1 : ("event: " ++ eventType ++ "\n") ∈
      writtenOn (w.writeStream c.sid ("event: " ++ eventType ++ "\n")) c.sid := by
    rw [writtenOn_writeStream_self]
    exact List.mem_append_right _ (List.mem_singleton.mpr rfl)
  have h2 : ("event: " ++ eventType ++ "\n") ∈
      writtenOn ((w.writeStream c.sid ("event: " ++ eventType ++ "\n")).writeStream c.sid
        (dataFrame eventType message requestId now)) c.sid := by
    rw [writtenOn_writeStream_self]
    exact List.mem_append_left _ h1
  by_cases hr : requestId = "system"
  · simpa [hr] using h2
  · simp only [hr, if_false, if_neg, not_false_iff]
    simpa [writtenOn] using h2

/-- Claim C1 counterexample: with no session registered, an emission for a
chart request (`requestId` = `"r1"`, not the reserved `"system"`) stores
nothing — `sendEvent` returns before the Event Store write, so
`getSseEvents "r1"` afterwards is empty rather than containing the emitted
event, and the whole call leaves the world untouched. -/
theorem sendEvent_unregistered_no_store_cex :
    (World.empty.sendEvent "c1" "progress" "msg" "r1" 0).storage.getSseEvents "r1" = [] ∧
      World.empty.sendEvent "c1" "progress" "msg" "r1" 0 = World.empty := by
  constructor <;> rfl

/-- Claim C1 (amended): the Event Store write in `sendEvent` happens only
when the target client is registered at emission time: an emission whose
clientId is not registered is a complete no-op (nothing is stored and
nothing is written), while an emission to a registered client with a
non-`"system"` requestId appends exactly that event (with upper-cased
type) to the request's history. -/
theorem sendEvent_store_write_requires_registration
    (w : World) (clientId eventType message requestId : String) (now : Nat) :
    (lookupA clientId w.clients = none →
        w.sendEvent clientId eventType message requestId now = w) ∧
      (∀ c : SSEClient, lookupA clientId w.clients = some c → requestId ≠ "system" →
        (w.sendEvent clientId eventType message requestId now).storage.getSseEvents requestId =
          w.storage.getSseEvents requestId ++
            [{ id := w.storage.currentEventId, requestId := requestId
               eventType := eventType.toUpper, message := message, timestamp := now }]) := by
  constructor
  · intro h
    exact sendEvent_not_found w clientId eventType message requestId now h
  · intro c hc h
    exact sendEvent_storage_append w clientId eventType message requestId now c hc h

/-- Witness for the amended claim C1 at concrete inputs: an unregistered
target (`c0` on the empty world) changes nothing, and a registered target
(`c1`) gets the event appended to the `r1` history. -/
theorem sendEvent_store_write_requires_registration_witness :
    (World.empty.sendEvent "c0" "progress" "m" "r1" 0 = World.empty) ∧
      ((World.empty.addClient "c1" 1 none 0).sendEvent "c1" "progress" "m" "r1" 3).storage.getSseEvents "r1" =
        [{ id := 1, requestId := "r1", eventType := "progress".toUpper, message := "m"
           timestamp := 3 }] := by
  constructor
  · exact (sendEvent_store_write_requires_registration World.empty "c0" "progress" "m" "r1" 0).1 rfl
  · have h := (sendEvent_store_write_requires_registration
      (World.empty.addClient "c1" 1 none 0) "c1" "progress" "m" "r1" 3).2
      { id := "c1", sid := 1, lastEventId := none } (by rfl) (by decide)
    rw [h]
    rfl

/-- Claim C10: `updateChartRequest` on a requestId not present in the
ledger returns `undefined` and leaves the storage state entirely
unchanged. -/
theorem updateChartRequest_unknown_id_noop (s : MemStorage) (requestId : String)
    (u : ChartRequestUpdate) (h : lookupA requestId s.chartRequests = none) :
    s.updateChartRequest requestId u = (none, s) := by
  unfold MemStorage.updateChartRequest
  rw [h]

/-- Witness for claim C10 on the empty storage. -/
theorem updateChartRequest_unknown_id_noop_witness :
    lookupA "r1" MemStorage.empty.chartRequests = none ∧
      MemStorage.empty.updateChartRequest "r1" { status := some "completed" } =
        (none, MemStorage.empty) :=
  ⟨rfl, updateChartRequest_unknown_id_noop MemStorage.empty "r1"
    { status := some "completed" } rfl⟩

theorem eventIdsGood_createSseEvent (s : MemStorage) (e : InsertSseEvent) (now : Nat)
    (h : EventIdsGood s) : EventIdsGood (s.createSseEvent e now).2 := by
  intro requestId
  by_cases hr : requestId = e.requestId
  · subst hr
    rw [createSseEvent_getSseEvents_self]
    constructor
    · refine List.pairwise_append.mpr
        ⟨(h e.requestId).1, List.pairwise_singleton _ _, ?_⟩
      intro a ha b hb
      rw [List.mem_singleton] at hb
      subst hb
      exact (h e.requestId).2 a ha
    · intro x hx
      rcases List.mem_append.mp hx with hx | hx
      · have := (h e.requestId).2 x hx
        simp only [MemStorage.createSseEvent]
        omega
      · rw [List.mem_singleton] at hx
        subst hx
        simp only [MemStorage.createSseEvent]
        omega
  · rw [createSseEvent_getSseEvents_other s e now requestId hr]
    refine ⟨(h requestId).1, ?_⟩
    intro x hx
    have := (h requestId).2 x hx
    simp only [MemStorage.createSseEvent]
    omega

theorem eventIdsGood_applyInserts (inserts : List (InsertSseEvent × Nat)) (s : MemStorage)
    (h : EventIdsGood s) : EventIdsGood (applyInserts inserts s) := by
  induction inserts generalizing s with
  | nil => exact h
  | cons p rest ih => exact ih _ (eventIdsGood_createSseEvent s p.1 p.2 h)

/-- Claim C8: for every sequence of Event Store appends against a fresh
storage and every requestId, the event ids recorded in that request's
history are strictly increasing in append order. -/
theorem sse_event_ids_strictly_increasing (inserts : List (InsertSseEvent × Nat))
    (requestId : String) :
    List.Pairwise (fun a b => a.id < b.id)
      ((applyInserts inserts MemStorage.empty).getSseEvents requestId) := by
  have base : EventIdsGood MemStorage.empty := by
    intro rid
    simp [MemStorage.getSseEvents, MemStorage.empty, lookupA]
  exact (eventIdsGood_applyInserts inserts MemStorage.empty base requestId).1

theorem removeClient_not_found (w : World) (clientId : String)
    (h : lookupA clientId w.clients = none) : w.removeClient clientId = w := by
  unfold World.removeClient
  rw [h]

theorem lookupA_removeClient_self (w : World) (h : NodupClients w) (clientId : String) :
    lookupA clientId (w.removeClient clientId).clients = none := by
  rw [removeClient_clients]
  cases hl : lookupA clientId w.clients with
  | none => simpa using hl
  | some c => exact lookupA_delA_self clientId w.clients h

/-- Claim C9: deregistration is total and idempotent on every reachable
manager state: a second `removeClient` with the same clientId is the
identity on the result of the first, removing a clientId that is not
registered changes nothing at all, and the client count is unchanged by
the second call. -/
theorem removeClient_idempotent (ops : List RegOp) (clientId : String) :
    ((runOps ops).removeClient clientId).removeClient clientId =
        (runOps ops).removeClient clientId ∧
      (lookupA clientId (runOps ops).clients = none →
        (runOps ops).removeClient clientId = runOps ops) ∧
      (((runOps ops).removeClient clientId).removeClient clientId).getClientCount =
        ((runOps ops).removeClient clientId).getClientCount := by
  have h1 : ((runOps ops).removeClient clientId).removeClient clientId =
      (runOps ops).removeClient clientId :=
    removeClient_not_found _ clientId
      (lookupA_removeClient_self (runOps ops) (nodupClients_runOps ops) clientId)
  exact ⟨h1, fun h => removeClient_not_found _ clientId h,
    congrArg World.getClientCount h1⟩

/-- Witness for claim C9: on the fresh registry (no registered clients),
removing `c1` twice equals removing it once, and removing the unknown
`c1` once is already the identity. -/
theorem removeClient_idempotent_witness :
    (World.empty.removeClient "c1").removeClient "c1" =
        World.empty.removeClient "c1" ∧
      World.empty.removeClient "c1" = World.empty := by
  have h := removeClient_idempotent [] "c1"
  exact ⟨h.1, h.2.1 rfl⟩

/-- Claim C5: on every reachable manager state, at most one live session
exists per client identifier; after registering the same clientId twice
the registry holds exactly one session for it, that session owns the
second stream (the first stream handle is no longer registered), and
`getClientCount` equals its value after the first registration (no double
count). -/
theorem at_most_one_session_per_client (ops : List RegOp) (clientId : String)
    (sid1 sid2 : Nat) (l1 l2 : Option String) (t1 t2 : Nat) :
    (∀ cid : String,
        ((runOps ops).clients.filter (fun p => p.1 = cid)).length ≤ 1) ∧
      ((((runOps ops).addClient clientId sid1 l1 t1).addClient clientId sid2 l2
          t2).clients.filter (fun p => p.1 = clientId)).length = 1 ∧
      lookupA clientId
          (((runOps ops).addClient clientId sid1 l1 t1).addClient clientId sid2
            l2 t2).clients =
        some { id := clientId, sid := sid2, lastEventId := l2 } ∧
      (((runOps ops).addClient clientId sid1 l1 t1).addClient clientId sid2 l2
          t2).getClientCount =
        ((runOps ops).addClient clientId sid1 l1 t1).getClientCount := by
  have hw : NodupClients (runOps ops) := nodupClients_runOps ops
  have h1 : NodupClients ((runOps ops).addClient clientId sid1 l1 t1) := by
    unfold NodupClients
    rw [addClient_clients]
    exact nodup_keysA_setA _ _ _ hw
  have h2 : NodupClients
      (((runOps ops).addClient clientId sid1 l1 t1).addClient clientId sid2 l2 t2) := by
    unfold NodupClients
    rw [addClient_clients]
    exact nodup_keysA_setA _ _ _ h1
  have hlook : lookupA clientId
      (((runOps ops).addClient clientId sid1 l1 t1).addClient clientId sid2 l2
        t2).clients = some { id := clientId, sid := sid2, lastEventId := l2 } := by
    rw [addClient_clients]
    exact lookupA_setA_self _ _ _
  refine ⟨fun cid => length_filter_key_le_one cid _ hw, ?_, hlook, ?_⟩
  · rw [filter_key_eq_of_lookup clientId _ _ h2 hlook]
    rfl
  · show (((runOps ops).addClient clientId sid1 l1 t1).addClient clientId sid2 l2
        t2).clients.length = _
    rw [addClient_clients]
    exact length_setA_mem _ _ _ (by
      rw [addClient_clients]
      exact mem_keysA_setA_self _ _ _)

/-- Claim C2 counterexample: a ChartRequest driven to `completed` (with
result payload, processing time and completion timestamp recorded) accepts
a further update: `updateChartRequest` returns the merged record with
status `processing` instead of rejecting it, and the stored entry's
terminal status is overwritten. -/
theorem terminal_update_applied_cex :
    ((((MemStorage.empty.createChartRequest sampleConfig 0).2.updateChartRequest "req_0_1"
          { status := some "completed", chartUrl := some (some "u")
            processingTime := some (some 7), completedAt := some (some 7) }).2.updateChartRequest
          "req_0_1" { status := some "processing" }).1.map (fun r => r.status)) =
        some "processing" ∧
      ((((MemStorage.empty.createChartRequest sampleConfig 0).2.updateChartRequest "req_0_1"
          { status := some "completed", chartUrl := some (some "u")
            processingTime := some (some 7), completedAt := some (some 7) }).2.updateChartRequest
          "req_0_1" { status := some "processing" }).2.getChartRequest "req_0_1").map
          (fun r => r.status) ≠ some "completed" := by
  constructor <;> decide

/-- Claim C2 (amended): `updateChartRequest` never rejects an update: for a
request already in a terminal state (`completed` or `failed`) the update
object is spread-merged over the existing record exactly as for any other
request, the merged record is returned, and it silently replaces the
stored entry — terminal fields are overwritten whenever the update carries
them. -/
theorem updateChartRequest_merges_terminal_state (s : MemStorage) (requestId : String)
    (u : ChartRequestUpdate) (r : ChartRequest)
    (hr : lookupA requestId s.chartRequests = some r)
    (_ht : r.status = "completed" ∨ r.status = "failed") :
    (s.updateChartRequest requestId u).1 = some (applyUpdates r u) ∧
      (s.updateChartRequest requestId u).2.getChartRequest requestId =
        some (applyUpdates r u) := by
  unfold MemStorage.updateChartRequest
  rw [hr]
  exact ⟨rfl, by
    unfold MemStorage.getChartRequest
    exact lookupA_setA_self requestId _ s.chartRequests⟩

/-- Witness for the amended claim C2 at a concrete completed request: the
update overwriting status is applied and returned. -/
theorem updateChartRequest_merges_terminal_state_witness :
    (((MemStorage.empty.createChartRequest sampleConfig 0).2.updateChartRequest "req_0_1"
        { status := some "completed" }).2.updateChartRequest "req_0_1"
        { status := some "processing" }).1.map (fun r => r.status) = some "processing" := by
  have hr : lookupA "req_0_1"
      ((MemStorage.empty.createChartRequest sampleConfig 0).2.updateChartRequest "req_0_1"
        { status := some "completed" }).2.chartRequests =
      some (applyUpdates
        ((MemStorage.empty.createChartRequest sampleConfig 0).1)
        { status := some "completed" }) := by decide
  have h := updateChartRequest_merges_terminal_state
    ((MemStorage.empty.createChartRequest sampleConfig 0).2.updateChartRequest "req_0_1"
      { status := some "completed" }).2
    "req_0_1" { status := some "processing" } _ hr (Or.inl (by decide))
  rw [h.1]
  decide

/-- Claim C4 counterexample: a broadcast while two sessions are registered
appends two copies of the event to the Event Store for its requestId — one
per connected session — not exactly one. -/
theorem broadcast_stores_one_copy_per_client_cex :
    ((((World.empty.addClient "c1" 1 none 0).addClient "c2" 2 none 0).broadcast
        "progress" "m" "r1" 5).storage.getSseEvents "r1").length = 2 := by
  decide

theorem lookupA_of_mem_nodup {κ α : Type} [DecidableEq κ] (k : κ) (v : α)
    (l : List (κ × α)) (hn : (keysA l).Nodup) (hm : (k, v) ∈ l) :
    lookupA k l = some v := by
  induction l with
  | nil => simp at hm
  | cons p rest ih =>
    have h' := List.nodup_cons.mp (by simpa [keysA_cons] using hn)
    rcases List.mem_cons.mp hm with hm | hm
    · rw [← hm]
      simp [lookupA]
    · have hk : p.1 ≠ k := by
        intro e
        apply h'.1
        rw [e]
        exact List.mem_map_of_mem Prod.fst hm
      simp [lookupA, hk, ih h'.2 hm]

theorem foldl_sendEvent_storage_length (l : List (String × SSEClient)) (w : World)
    (eventType message requestId : String) (now : Nat) (h : requestId ≠ "system")
    (hl : ∀ p ∈ l, lookupA p.1 w.clients = some p.2) :
    ((l.foldl (fun acc p => acc.sendEvent p.1 eventType message requestId now)
        w).storage.getSseEvents requestId).length =
      (w.storage.getSseEvents requestId).length + l.length := by
  induction l generalizing w with
  | nil => simp
  | cons q rest ih =>
    rw [List.foldl_cons]
    have hq := hl q (List.mem_cons_self q rest)
    have hrest : ∀ p ∈ rest,
        lookupA p.1 (w.sendEvent q.1 eventType message requestId now).clients = some p.2 := by
      intro p hp
      rw [sendEvent_clients]
      exact hl p (List.mem_cons_of_mem q hp)
    rw [ih _ hrest, sendEvent_storage_append w q.1 eventType message requestId now q.2 hq h]
    rw [List.length_append]
    simp
    omega

theorem foldl_sendEvent_written_mono (l : List (String × SSEClient)) (w : World)
    (eventType message requestId : String) (now : Nat) (sid : Nat) (frame : String)
    (h : frame ∈ writtenOn w sid) :
    frame ∈ writtenOn
      (l.foldl (fun acc p => acc.sendEvent p.1 eventType message requestId now) w) sid := by
  induction l generalizing w with
  | nil => exact h
  | cons q rest ih =>
    rw [List.foldl_cons]
    exact ih _ (writtenOn_sendEvent_mono w q.1 eventType message requestId now sid frame h)

theorem foldl_sendEvent_written_each (l : List (String × SSEClient)) (w : World)
    (eventType message requestId : String) (now : Nat)
    (hl : ∀ p ∈ l, lookupA p.1 w.clients = some p.2) :
    ∀ p ∈ l, ("event: " ++ eventType ++ "\n") ∈
      writtenOn
        (l.foldl (fun acc p => acc.sendEvent p.1 eventType message requestId now) w)
        p.2.sid := by
  induction l generalizing w with
  | nil =>
    intro p hp
    simp at hp
  | cons q rest ih =>
    intro p hp
    rw [List.foldl_cons]
    rcases List.mem_cons.mp hp with hp | hp
    · rw [hp]
      exact foldl_sendEvent_written_mono rest _ eventType message requestId now q.2.sid _
        (writtenOn_sendEvent_self w q.1 eventType message requestId now q.2
          (hl q (List.mem_cons_self q rest)))
    · exact ih _ (fun r hr => by
        rw [sendEvent_clients]
        exact hl r (List.mem_cons_of_mem q hr)) p hp

/-- Claim C4 (amended): a broadcast while n sessions are registered (on a
well-formed registry) writes the event frame to each of the n live
sessions' streams and appends one copy of the event to the Event Store
per registered session — n copies in total, not exactly one. -/
theorem broadcast_appends_one_event_per_client (w : World)
    (eventType message requestId : String) (now : Nat)
    (hn : NodupClients w) (h : requestId ≠ "system") :
    ((w.broadcast eventType message requestId now).storage.getSseEvents requestId).length =
        (w.storage.getSseEvents requestId).length + w.getClientCount ∧
      ∀ p ∈ w.clients,
        ("event: " ++ eventType ++ "\n") ∈
          writtenOn (w.broadcast eventType message requestId now) p.2.sid := by
  have hl : ∀ p ∈ w.clients, lookupA p.1 w.clients = some p.2 := by
    intro p hp
    exact lookupA_of_mem_nodup p.1 p.2 w.clients hn (by simpa using hp)
  exact ⟨foldl_sendEvent_storage_length w.clients w eventType message requestId now h hl,
    foldl_sendEvent_written_each w.clients w eventType message requestId now hl⟩

/-- Witness for the amended claim C4 on a concrete two-session registry:
the broadcast stores two copies (one per session) and both sessions'
streams receive the event frame. -/
theorem broadcast_appends_one_event_per_client_witness :
    ((((World.empty.addClient "c1" 1 none 0).addClient "c2" 2 none 0).broadcast
        "progress" "m" "r1" 5).storage.getSseEvents "r1").length = 0 + 2 ∧
      ("event: progress\n") ∈
        writtenOn (((World.empty.addClient "c1" 1 none 0).addClient "c2" 2 none
          0).broadcast "progress" "m" "r1" 5) 1 ∧
      ("event: progress\n") ∈
        writtenOn (((World.empty.addClient "c1" 1 none 0).addClient "c2" 2 none
          0).broadcast "progress" "m" "r1" 5) 2 := by
  have h := broadcast_appends_one_event_per_client
    ((World.empty.addClient "c1" 1 none 0).addClient "c2" 2 none 0)
    "progress" "m" "r1" 5
    (by unfold NodupClients; decide) (by decide)
  refine ⟨h.1, ?_, ?_⟩
  · have hm := h.2 ("c1", { id := "c1", sid := 1, lastEventId := none }) (by decide)
    simpa using hm
  · have hm := h.2 ("c2", { id := "c2", sid := 2, lastEventId := none }) (by decide)
    simpa using hm

theorem mem_insertDesc (x y : ChartRequest) (l : List ChartRequest) :
    y ∈ insertDesc x l ↔ y = x ∨ y ∈ l := by
  induction l with
  | nil => simp [insertDesc]
  | cons z zs ih =>
    by_cases h : z.createdAt ≤ x.createdAt
    · simp only [insertDesc, if_pos h, List.mem_cons]
    · simp only [insertDesc, if_neg h, List.mem_cons, ih]
      tauto

theorem sorted_insertDesc (x : ChartRequest) (l : List ChartRequest)
    (h : List.Pairwise (fun a b => b.createdAt ≤ a.createdAt) l) :
    List.Pairwise (fun a b => b.createdAt ≤ a.createdAt) (insertDesc x l) := by
  induction l with
  | nil => simp [insertDesc]
  | cons z zs ih =>
    rcases List.pairwise_cons.mp h with ⟨hz, hzs⟩
    by_cases hle : z.createdAt ≤ x.createdAt
    · rw [insertDesc, if_pos hle]
      refine List.pairwise_cons.mpr ⟨?_, h⟩
      intro b hb
      rcases List.mem_cons.mp hb with hb | hb
      · rw [hb]
        exact hle
      · exact le_trans (hz b hb) hle
    · rw [insertDesc, if_neg hle]
      refine List.pairwise_cons.mpr ⟨?_, ih hzs⟩
      intro b hb
      rcases (mem_insertDesc x b zs).mp hb with hb | hb
      · rw [hb]
        exact le_of_lt (lt_of_not_le hle)
      · exact hz b hb

theorem sorted_sortDesc (l : List ChartRequest) :
    List.Pairwise (fun a b => b.createdAt ≤ a.createdAt) (sortDesc l) := by
  induction l with
  | nil => simp [sortDesc]
  | cons x xs ih => exact sorted_insertDesc x (sortDesc xs) ih

theorem filter_createdAt_insertDesc (x : ChartRequest) (l : List ChartRequest) (t : Nat) :
    (insertDesc x l).filter (fun r => r.createdAt = t) =
      if x.createdAt = t then x :: l.filter (fun r => r.createdAt = t)
      else l.filter (fun r => r.createdAt = t) := by
  induction l with
  | nil =>
    by_cases h : x.createdAt = t <;> simp [insertDesc, h]
  | cons z zs ih =>
    by_cases hle : z.createdAt ≤ x.createdAt
    · rw [insertDesc, if_pos hle]
      by_cases hx : x.createdAt = t <;> simp [List.filter_cons, hx]
    · rw [insertDesc, if_neg hle]
      by_cases hx : x.createdAt = t
      · have hz : ¬(z.createdAt = t) := by
          intro e
          rw [← hx] at e
          exact hle (le_of_eq e)
        simp [List.filter_cons, hz, hx, ih]
      · by_cases hz : z.createdAt = t <;> simp [List.filter_cons, hz, hx, ih]

theorem filter_createdAt_sortDesc (l : List ChartRequest) (t : Nat) :
    (sortDesc l).filter (fun r => r.createdAt = t) =
      l.filter (fun r => r.createdAt = t) := by
  induction l with
  | nil => simp [sortDesc]
  | cons x xs ih =>
    rw [sortDesc, filter_createdAt_insertDesc]
    by_cases hx : x.createdAt = t <;> simp [List.filter_cons, hx, ih]

/-- Claim C6 counterexample: two requests created at the same timestamp
(t=5, ids 1 then 2): `getRecentChartRequests 2` returns them with the
lower id first (`[1, 2]`, the stable-sort insertion order), not with the
higher id counted as more recent (`[2, 1]`) as the claim's tie-break rule
requires. -/
theorem listRecent_tie_order_cex :
    (((MemStorage.empty.createChartRequest sampleConfig 5).2.createChartRequest sampleConfig
        5).2.getRecentChartRequests 2).map (fun r => r.id) = [1, 2] ∧
      (((MemStorage.empty.createChartRequest sampleConfig 5).2.createChartRequest sampleConfig
        5).2.getRecentChartRequests 2).map (fun r => r.id) ≠ [2, 1] := by
  constructor <;> decide

/-- Claim C6 (amended): `getRecentChartRequests limit` returns up to
`limit` requests ordered newest-first by creation time, with ties kept in
insertion order (the earlier-created request, i.e. the lower id, first —
JS stable sort), captured by: the result is sorted by non-increasing
`createdAt`, has length at most `limit`, and the underlying sort keeps the
requests of any fixed creation time in ledger order; after creating three
requests R1, R2, R3 at strictly increasing times, `listRecent 2` is
`[R3, R2]`, while at equal times the ties stay in creation order. -/
theorem getRecentChartRequests_newest_first (s : MemStorage) (limit : Nat) (t : Nat) :
    List.Pairwise (fun a b => b.createdAt ≤ a.createdAt)
        (s.getRecentChartRequests limit) ∧
      (s.getRecentChartRequests limit).length ≤ limit ∧
      (sortDesc (s.chartRequests.map Prod.snd)).filter (fun r => r.createdAt = t) =
        (s.chartRequests.map Prod.snd).filter (fun r => r.createdAt = t) ∧
      ((((MemStorage.empty.createChartRequest sampleConfig 1).2.createChartRequest sampleConfig
          2).2.createChartRequest sampleConfig 3).2.getRecentChartRequests 2).map
          (fun r => r.id) = [3, 2] ∧
      (((MemStorage.empty.createChartRequest sampleConfig 5).2.createChartRequest sampleConfig
          5).2.getRecentChartRequests 2).map (fun r => r.id) = [1, 2] := by
  refine ⟨?_, ?_, filter_createdAt_sortDesc _ t, by decide, by decide⟩
  · exact (sorted_sortDesc (s.chartRequests.map Prod.snd)).sublist
      (List.take_sublist limit _)
  · exact List.length_take_le limit _

/-- Claim C3 counterexample: in a concrete successful lifecycle with a
connected client (submitted at t=10, upstream resolving at t=20), both the
`request` ("started") event and the `success` (terminal) event are emitted
strictly before their corresponding ledger writes: the `processing` status
write comes after the `request` emission, and the `completed` write comes
after the `success` emission, so a reader observing the terminal event can
still find the ledger in the prior state. -/
theorem ledger_write_after_emit_cex :
    firstIdxP (isEmitOf "success" "req_10_1") lifecycleLog < lifecycleLog.length ∧
      firstIdxP (isWriteOf "completed" "req_10_1") lifecycleLog < lifecycleLog.length ∧
      ¬(firstIdxP (isWriteOf "completed" "req_10_1") lifecycleLog ≤
          firstIdxP (isEmitOf "success" "req_10_1") lifecycleLog) ∧
      ¬(firstIdxP (isWriteOf "processing" "req_10_1") lifecycleLog ≤
          firstIdxP (isEmitOf "request" "req_10_1") lifecycleLog) := by
  refine ⟨?_, ?_, ?_, ?_⟩ <;> decide

/-- Claim C3 (amended): for every upstream outcome, every starting state
and all clock readings, the lifecycle events are sequenced strictly
BEFORE their corresponding ledger transitions: the `request` event is
emitted before the `processing` ledger write, and the terminal event
(`success` or `error`) is emitted before the terminal ledger write
(`completed` or `failed`), so a reader who observes an event may still see
the ledger in the preceding state. -/
theorem emit_precedes_ledger_write (w : World) (upstream : UpstreamResult) (t0 t1 : Nat) :
    firstIdxP
        (isEmitOf "request"
          ("req_" ++ toString t0 ++ "_" ++ toString w.storage.currentChartId))
        (chartGenerateRoute { world := w, log := [] } rawSample (some "c1") upstream t0
          t1).2.log <
      firstIdxP
        (isWriteOf "processing"
          ("req_" ++ toString t0 ++ "_" ++ toString w.storage.currentChartId))
        (chartGenerateRoute { world := w, log := [] } rawSample (some "c1") upstream t0
          t1).2.log ∧
    firstIdxP
        (isEmitOf (terminalEventType upstream)
          ("req_" ++ toString t0 ++ "_" ++ toString w.storage.currentChartId))
        (chartGenerateRoute { world := w, log := [] } rawSample (some "c1") upstream t0
          t1).2.log <
      firstIdxP
        (isWriteOf (terminalStatusOf upstream)
          ("req_" ++ toString t0 ++ "_" ++ toString w.storage.currentChartId))
        (chartGenerateRoute { world := w, log := [] } rawSample (some "c1") upstream t0
          t1).2.log := by
  cases upstream with
  | jsonOk u b =>
    simp [show (chartGenerateRoute { world := w, log := [] } rawSample (some "c1")
        (.jsonOk u b) t0 t1).2.log =
      [Step.createReq ("req_" ++ toString t0 ++ "_" ++ toString w.storage.currentChartId),
       Step.emit "c1" "request" ("Chart generation started for " ++ "NASDAQ:AAPL")
         ("req_" ++ toString t0 ++ "_" ++ toString w.storage.currentChartId),
       Step.ledgerWrite ("req_" ++ toString t0 ++ "_" ++ toString w.storage.currentChartId)
         "processing",
       Step.emit "c1" "progress" "Preparing chart request..."
         ("req_" ++ toString t0 ++ "_" ++ toString w.storage.currentChartId),
       Step.emit "c1" "progress" "Sending request to Chart-IMG API..."
         ("req_" ++ toString t0 ++ "_" ++ toString w.storage.currentChartId),
       Step.emit "c1" "progress" "Processing chart data..."
         ("req_" ++ toString t0 ++ "_" ++ toString w.storage.currentChartId),
       Step.emit "c1" "success"
         ("Chart generated successfully (" ++ secondsTenths (t1 - t0) ++ "s)")
         ("req_" ++ toString t0 ++ "_" ++ toString w.storage.currentChartId),
       Step.ledgerWrite ("req_" ++ toString t0 ++ "_" ++ toString w.storage.currentChartId)
         "completed"] from rfl,
      firstIdxP, isEmitOf, isWriteOf, terminalEventType, terminalStatusOf]
  | pngOk b =>
    simp [show (chartGenerateRoute { world := w, log := [] } rawSample (some "c1")
        (.pngOk b) t0 t1).2.log =
      [Step.createReq ("req_" ++ toString t0 ++ "_" ++ toString w.storage.currentChartId),
       Step.emit "c1" "request" ("Chart generation started for " ++ "NASDAQ:AAPL")
         ("req_" ++ toString t0 ++ "_" ++ toString w.storage.currentChartId),
       Step.ledgerWrite ("req_" ++ toString t0 ++ "_" ++ toString w.storage.currentChartId)
         "processing",
       Step.emit "c1" "progress" "Preparing chart request..."
         ("req_" ++ toString t0 ++ "_" ++ toString w.storage.currentChartId),
       Step.emit "c1" "progress" "Sending request to Chart-IMG API..."
         ("req_" ++ toString t0 ++ "_" ++ toString w.storage.currentChartId),
       Step.emit "c1" "progress" "Processing chart data..."
         ("req_" ++ toString t0 ++ "_" ++ toString w.storage.currentChartId),
       Step.emit "c1" "success"
         ("Chart generated successfully (" ++ secondsTenths (t1 - t0) ++ "s)")
         ("req_" ++ toString t0 ++ "_" ++ toString w.storage.currentChartId),
       Step.ledgerWrite ("req_" ++ toString t0 ++ "_" ++ toString w.storage.currentChartId)
         "completed"] from rfl,
      firstIdxP, isEmitOf, isWriteOf, terminalEventType, terminalStatusOf]
  | httpError st body =>
    simp [show (chartGenerateRoute { world := w, log := [] } rawSample (some "c1")
        (.httpError st body) t0 t1).2.log =
      [Step.createReq ("req_" ++ toString t0 ++ "_" ++ toString w.storage.currentChartId),
       Step.emit "c1" "request" ("Chart generation started for " ++ "NASDAQ:AAPL")
         ("req_" ++ toString t0 ++ "_" ++ toString w.storage.currentChartId),
       Step.ledgerWrite ("req_" ++ toString t0 ++ "_" ++ toString w.storage.currentChartId)
         "processing",
       Step.emit "c1" "progress" "Preparing chart request..."
         ("req_" ++ toString t0 ++ "_" ++ toString w.storage.currentChartId),
       Step.emit "c1" "progress" "Sending request to Chart-IMG API..."
         ("req_" ++ toString t0 ++ "_" ++ toString w.storage.currentChartId),
       Step.emit "c1" "error"
         ("Chart generation failed: " ++
           ("Chart-IMG API error: " ++ toString st ++ " " ++ body))
         ("req_" ++ toString t0 ++ "_" ++ toString w.storage.currentChartId),
       Step.ledgerWrite ("req_" ++ toString t0 ++ "_" ++ toString w.storage.currentChartId)
         "failed"] from rfl,
      firstIdxP, isEmitOf, isWriteOf, terminalEventType, terminalStatusOf]
  | badContentType =>
    simp [show (chartGenerateRoute { world := w, log := [] } rawSample (some "c1")
        .badContentType t0 t1).2.log =
      [Step.createReq ("req_" ++ toString t0 ++ "_" ++ toString w.storage.currentChartId),
       Step.emit "c1" "request" ("Chart generation started for " ++ "NASDAQ:AAPL")
         ("req_" ++ toString t0 ++ "_" ++ toString w.storage.currentChartId),
       Step.ledgerWrite ("req_" ++ toString t0 ++ "_" ++ toString w.storage.currentChartId)
         "processing",
       Step.emit "c1" "progress" "Preparing chart request..."
         ("req_" ++ toString t0 ++ "_" ++ toString w.storage.currentChartId),
       Step.emit "c1" "progress" "Sending request to Chart-IMG API..."
         ("req_" ++ toString t0 ++ "_" ++ toString w.storage.currentChartId),
       Step.emit "c1" "progress" "Processing chart data..."
         ("req_" ++ toString t0 ++ "_" ++ toString w.storage.currentChartId),
       Step.emit "c1" "error"
         ("Chart generation failed: " ++ "Unexpected response format from Chart-IMG API")
         ("req_" ++ toString t0 ++ "_" ++ toString w.storage.currentChartId),
       Step.ledgerWrite ("req_" ++ toString t0 ++ "_" ++ toString w.storage.currentChartId)
         "failed"] from rfl,
      firstIdxP, isEmitOf, isWriteOf, terminalEventType, terminalStatusOf]
  | networkError msg =>
    simp [show (chartGenerateRoute { world := w, log := [] } rawSample (some "c1")
        (.networkError msg) t0 t1).2.log =
      [Step.createReq ("req_" ++ toString t0 ++ "_" ++ toString w.storage.currentChartId),
       Step.emit "c1" "request" ("Chart generation started for " ++ "NASDAQ:AAPL")
         ("req_" ++ toString t0 ++ "_" ++ toString w.storage.currentChartId),
       Step.ledgerWrite ("req_" ++ toString t0 ++ "_" ++ toString w.storage.currentChartId)
         "processing",
       Step.emit "c1" "progress" "Preparing chart request..."
         ("req_" ++ toString t0 ++ "_" ++ toString w.storage.currentChartId),
       Step.emit "c1" "progress" "Sending request to Chart-IMG API..."
         ("req_" ++ toString t0 ++ "_" ++ toString w.storage.currentChartId),
       Step.emit "c1" "error" ("Chart generation failed: " ++ msg)
         ("req_" ++ toString t0 ++ "_" ++ toString w.storage.currentChartId),
       Step.ledgerWrite ("req_" ++ toString t0 ++ "_" ++ toString w.storage.currentChartId)
         "failed"] from rfl,
      firstIdxP, isEmitOf, isWriteOf, terminalEventType, terminalStatusOf]

/-- Claim C7: a submission whose body fails schema validation gets the 400
response synchronously and has no effect at all on the state: no
ChartRequest is created, no event is emitted or stored, and the recent
list is unchanged. -/
theorem invalid_config_rejected_without_side_effects (lw : LWorld) (raw : RawChartConfig)
    (clientIdHeader : Option String) (upstream : UpstreamResult) (t0 t1 : Nat)
    (e : String) (h : chartConfigParse raw = Except.error e) :
    chartGenerateRoute lw raw clientIdHeader upstream t0 t1 =
        ({ httpStatus := 400, success := false, requestId := none
           error := some "Invalid request parameters" }, lw) ∧
      (chartGenerateRoute lw raw clientIdHeader upstream t0
          t1).2.world.storage.getRecentChartRequests 10 =
        lw.world.storage.getRecentChartRequests 10 := by
  have h1 : chartGenerateRoute lw raw clientIdHeader upstream t0 t1 =
      ({ httpStatus := 400, success := false, requestId := none
         error := some "Invalid request parameters" }, lw) := by
    unfold chartGenerateRoute
    rw [h]
  exact ⟨h1, by rw [h1]⟩

/-- Witness for claim C7: a body missing the required symbol field fails
parsing with `"Required"`, and the route leaves the fresh state untouched
while answering 400. -/
theorem invalid_config_rejected_without_side_effects_witness :
    chartConfigParse { interval := some "1D", chartType := some "candlestick" } =
        Except.error "Required" ∧
      chartGenerateRoute { world := World.empty, log := [] }
          { interval := some "1D", chartType := some "candlestick" } none .badContentType 0
          0 =
        ({ httpStatus := 400, success := false, requestId := none
           error := some "Invalid request parameters" },
          { world := World.empty, log := [] }) :=
  ⟨rfl, (invalid_config_rejected_without_side_effects { world := World.empty, log := [] }
    { interval := some "1D", chartType := some "candlestick" } none .badContentType 0 0
    "Required" rfl).1⟩

end MCPChart
